import Mathlib

/-!
Shallow embedding of the api-iras REST gateway (Go) and proofs about its
request-handling behaviour.

Conventions of the embedding:
* Go strings are Lean `String`s; `strings.TrimSpace` / `strings.HasPrefix` /
  `strings.Replace(s, pat, "", 1)` are re-implemented structurally on the
  character list (`goTrimSpace`, `goHasPrefix`, `replaceFirst`) so that all
  definitions reduce in the kernel.  Go's byte length coincides with the
  character length on the ASCII data exercised here.
* Go `float64` money amounts are modelled as exact rationals (`ℚ`); the
  formulas under scrutiny are percentage computations and comparisons whose
  branch structure is the object of the claims.
* Go `int`/`int64` are modelled as `Int`.
* The relational store is modelled as an in-memory list per table; `First`
  with a `WHERE` clause is `List.find?`, `Create` appends a row.  The
  clock and random sources are passed in explicitly as parameters.
-/

namespace ApiIras

/-! ### Shared envelope pieces -/

/-- A `{field, message}` entry of a `fieldInfoList` (same shape in every
endpoint family). -/
structure FieldError where
  field : String
  message : String
deriving DecidableEq

/-- The `info` object of the IRAS-spec envelopes: message, numeric message
code and optional field error list. -/
structure Info where
  message : String
  messageCode : Nat
  fieldInfoList : List FieldError := []
deriving DecidableEq

/-! ### Go string helpers (structural re-implementations) -/

/-- Whitespace predicate used by `goTrimSpace` (ASCII fragment of Go's
`unicode.IsSpace`; the inputs exercised by the spec are ASCII). -/
def isSpaceChar (c : Char) : Bool :=
  c = ' ' || c = '\t' || c = '\n' || c = '\r'

/-- Go `strings.TrimSpace`. -/
def goTrimSpace (s : String) : String :=
  String.mk (((s.toList.dropWhile isSpaceChar).reverse.dropWhile isSpaceChar).reverse)

/-- Go `strings.HasPrefix`. -/
def goHasPrefix (s pre : String) : Bool :=
  pre.toList.isPrefixOf s.toList

/-- Helper for `replaceFirst`: if `pat` matches at the head of `s`, return the
remainder of `s`. -/
def stripMatch : List Char → List Char → Option (List Char)
  | [], s => some s
  | _ :: _, [] => none
  | p :: ps, c :: cs => if p = c then stripMatch ps cs else none

/-- Go `strings.Replace(s, pat, "", 1)`: delete the first occurrence of
`pat` in `s`. -/
def replaceFirst (pat : List Char) : List Char → List Char
  | [] => []
  | c :: cs =>
    match stripMatch pat (c :: cs) with
    | some rest => rest
    | none => c :: replaceFirst pat cs

/-! ### `utils.Paginate` (pkg/utils/utils.go) -/

/-- `utils.Paginate`: clamp the page and limit and compute the row offset,
returning `(offset, limit)`. -/
def Paginate (page limit : Int) : Int × Int :=
  let page := if page < 1 then 1 else page
  let limit := if limit < 1 ∨ limit > 100 then 10 else limit
  ((page - 1) * limit, limit)

/-- The pagination contract as the spec words it (for comparison with
`Paginate`): clamp `page ≥ 1`, clamp `limit` into `1..100` defaulting to 10,
then `offset = (page - 1) * limit`. -/
def paginateSpec (page limit : Int) : Int × Int :=
  let pageClamped := if page ≥ 1 then page else 1
  let limitClamped := if 1 ≤ limit ∧ limit ≤ 100 then limit else 10
  ((pageClamped - 1) * limitClamped, limitClamped)

/-! ### `middleware.AuthRequired` (internal/middleware/middleware.go) -/

/-- Claims carried by a validated JWT (`utils.JWTClaims`). -/
structure JWTClaims where
  userID : String
  username : String
  email : String
  role : String
deriving DecidableEq

/-- Outcome of the `AuthRequired` middleware: either the request is aborted
with HTTP 401, or the user identity is placed in the request context. -/
inductive AuthResult where
  | unauthorized (message : String)
  | authenticated (userID username email role : String)
deriving DecidableEq

/-- `middleware.AuthRequired`, as a function of the configured runtime mode
`env` (`config.AppConfig.Env`, available to but not consulted by the code),
the `Authorization` header, and the result of `utils.ValidateJWT` on the
extracted token (`none` models a validation error). -/
def authRequired (env authHeader : String) (jwtClaims : Option JWTClaims) : AuthResult :=
  if authHeader = "" then
    .unauthorized "Authorization header required"
  else
    let tokenString := String.mk (replaceFirst "Bearer ".toList authHeader.toList)
    if tokenString = "" then
      .unauthorized "Invalid token format"
    else if goHasPrefix tokenString "demo-token" && decide (tokenString.toList.length ≥ 10) then
      .authenticated "999" "demo" "demo@example.com" "admin"
    else
      match jwtClaims with
      | none => .unauthorized "Invalid token"
      | some claims => .authenticated claims.userID claims.username claims.email claims.role

/-! ### Helper lemmas for the string machinery -/

theorem stripMatch_append (pat rest : List Char) :
    stripMatch pat (pat ++ rest) = some rest := by
  induction pat with
  | nil => rfl
  | cons p ps ih => simp [stripMatch, ih]

theorem replaceFirst_self_append (p : Char) (ps rest : List Char) :
    replaceFirst (p :: ps) (p :: ps ++ rest) = rest := by
  have h := stripMatch_append (p :: ps) rest
  simp only [List.cons_append] at h
  simp [replaceFirst, h]

theorem toList_append (s t : String) : (s ++ t).toList = s.toList ++ t.toList := by
  cases s with
  | mk ds =>
    cases t with
    | mk dt => rfl

/-! ### Claim C1 -/

/-- Claim C1 (counterexample): with the runtime mode set to `production`
(not `development`), a bearer token equal to the demo prefix is still
accepted by `AuthRequired` and authenticated with role `admin`: it is not
rejected with HTTP 401. -/
theorem authRequired_production_demo_token_accepted :
    authRequired "production" "Bearer demo-token" none =
      .authenticated "999" "demo" "demo@example.com" "admin" := by decide

/-- Claim C1 (amended): for EVERY runtime mode (including non-development
modes), a request whose Authorization bearer token begins with the fixed
demo prefix `demo-token` is authenticated by `AuthRequired` with role
`admin`; the rejection of the demo token outside development mode does not
happen in the code. -/
theorem authRequired_demo_token_admin (env token : String) (jwtClaims : Option JWTClaims)
    (h : goHasPrefix token "demo-token" = true) :
    authRequired env ("Bearer " ++ token) jwtClaims =
      .authenticated "999" "demo" "demo@example.com" "admin" := by
  have hpre : "demo-token".toList <+: token.toList := by
    simpa [goHasPrefix, List.isPrefixOf_iff_prefix] using h
  have hlen : 10 ≤ token.toList.length := by
    have h1 := hpre.length_le
    simpa using h1
  have htl : ("Bearer " ++ token).toList = "Bearer ".toList ++ token.toList :=
    toList_append _ _
  have hne : ("Bearer " ++ token) ≠ "" := by
    intro hcontra
    have h2 : ("Bearer " ++ token).toList = ([] : List Char) := by
      rw [hcontra]; rfl
    rw [htl] at h2
    simp at h2
  have hrf : replaceFirst "Bearer ".toList ("Bearer " ++ token).toList = token.toList := by
    rw [htl]
    exact replaceFirst_self_append 'B' "earer ".toList token.toList
  have hmk : String.mk token.toList = token := rfl
  have htok_ne : token ≠ "" := by
    intro hcontra
    rw [hcontra] at hlen
    simp at hlen
  unfold authRequired
  rw [if_neg hne, hrf, hmk, if_neg htok_ne, if_pos]
  rw [h, decide_eq_true hlen]
  rfl

/-- Claim C1 witness: the amended theorem applied at the concrete mode
`production` and the concrete token `demo-token-12345`. -/
theorem authRequired_demo_token_admin_witness :
    goHasPrefix "demo-token-12345" "demo-token" = true ∧
    authRequired "production" ("Bearer " ++ "demo-token-12345") none =
      .authenticated "999" "demo" "demo@example.com" "admin" :=
  ⟨by decide, authRequired_demo_token_admin "production" "demo-token-12345" none (by decide)⟩

/-! ### Claim C3 -/

/-- Claim C3: for every integer pair `(page, limit)`, `utils.Paginate`
returns `offset = (page' - 1) * limit'` and `limit'`, where `page'` clamps
`page` to at least 1 and `limit'` is `limit` when `1 ≤ limit ≤ 100` and 10
otherwise. -/
theorem Paginate_eq_paginateSpec (page limit : Int) :
    Paginate page limit = paginateSpec page limit := by
  simp only [Paginate, paginateSpec]
  split_ifs <;> first | rfl | (exfalso; omega)

/-! ### GST registration lookup (`GSTService.SearchGSTRegistered`) -/

/-- A row of the `gst_registrations` table (`models.GSTRegistration`; the
surrogate id / timestamps of `BaseModel` are omitted as no claim reads
them). -/
structure GSTRegistration where
  clientID : String
  registrationID : String
  gstRegistrationNumber : String
  name : String
  registeredFrom : String
  registeredTo : String
  status : String
  remarks : String
deriving DecidableEq

/-- `models.GSTRequest`: the request body of `SearchGSTRegistered`. -/
structure GSTRequest where
  clientID : String
  regID : String
deriving DecidableEq

/-- `models.GSTData`: the success payload of the GST lookup. -/
structure GSTData where
  name : String
  gstRegistrationNumber : String
  registrationID : String
  registeredFrom : String
  registeredTo : String
  remarks : String
  status : String
deriving DecidableEq

/-- `models.GSTResponse` envelope. -/
structure GSTResponse where
  returnCode : Nat
  data : Option GSTData := none
  info : Option Info := none
deriving DecidableEq

/-- `GSTService.SearchGSTRegistered`: validate the two fields, then look the
registration up by `(registration_id, client_id)`; 10 = found, 20 = not
found, 40 = validation error. -/
def SearchGSTRegistered (db : List GSTRegistration) (req : GSTRequest) : GSTResponse :=
  if goTrimSpace req.clientID = "" then
    { returnCode := 40,
      info := some { message := "Invalid client ID", messageCode := 40001,
                     fieldInfoList := [⟨"clientID", "Client ID is required"⟩] } }
  else if goTrimSpace req.regID = "" then
    { returnCode := 40,
      info := some { message := "Invalid registration ID", messageCode := 40002,
                     fieldInfoList := [⟨"regID", "Registration ID is required"⟩] } }
  else
    match db.find? (fun r => r.registrationID == req.regID && r.clientID == req.clientID) with
    | none =>
      { returnCode := 20,
        info := some { message := "GST registration not found", messageCode := 20001 } }
    | some r =>
      { returnCode := 10,
        data := some { name := r.name, gstRegistrationNumber := r.gstRegistrationNumber,
                       registrationID := r.registrationID, registeredFrom := r.registeredFrom,
                       registeredTo := r.registeredTo, remarks := r.remarks,
                       status := r.status } }

/-! ### Claim C2 -/

/-- Claim C2: with a registration seeded under registration id `R1` and
client `C1`, the lookup with `(clientID = C1, regID = R1)` returns
`returnCode = 10` together with the seeded fields; a `regID` matching no
row returns `returnCode = 20`; an empty `clientID` returns
`returnCode = 40` with a field error on `clientID`. -/
theorem SearchGSTRegistered_seeded (r : GSTRegistration)
    (hc : r.clientID = "C1") (hr : r.registrationID = "R1") :
    SearchGSTRegistered [r] ⟨"C1", "R1"⟩ =
      { returnCode := 10,
        data := some { name := r.name, gstRegistrationNumber := r.gstRegistrationNumber,
                       registrationID := "R1", registeredFrom := r.registeredFrom,
                       registeredTo := r.registeredTo, remarks := r.remarks,
                       status := r.status } } ∧
    SearchGSTRegistered [r] ⟨"C1", "missing"⟩ =
      { returnCode := 20,
        info := some { message := "GST registration not found", messageCode := 20001 } } ∧
    SearchGSTRegistered [r] ⟨"", "R1"⟩ =
      { returnCode := 40,
        info := some { message := "Invalid client ID", messageCode := 40001,
                       fieldInfoList := [⟨"clientID", "Client ID is required"⟩] } } := by
  refine ⟨?_, ?_, ?_⟩
  · simp [SearchGSTRegistered, goTrimSpace, isSpaceChar, List.find?, hc, hr]
  · simp [SearchGSTRegistered, goTrimSpace, isSpaceChar, List.find?, hc, hr]
  · simp [SearchGSTRegistered, goTrimSpace, isSpaceChar]

/-- Claim C2 witness: the theorem applied at a concrete seeded
registration. -/
theorem SearchGSTRegistered_seeded_witness :
    SearchGSTRegistered [⟨"C1", "R1", "GST123", "Acme Pte Ltd", "2020-01-01", "2030-01-01", "Registered", "ok"⟩]
        ⟨"C1", "R1"⟩ =
      { returnCode := 10,
        data := some ⟨"Acme Pte Ltd", "GST123", "R1", "2020-01-01", "2030-01-01", "ok", "Registered"⟩ } :=
  (SearchGSTRegistered_seeded
      ⟨"C1", "R1", "GST123", "Acme Pte Ltd", "2020-01-01", "2030-01-01", "Registered", "ok"⟩
      rfl rfl).1

/-! ### Timestamps (`time.Now().Format(...)`) -/

/-- A calendar timestamp, standing for the `time.Time` value `time.Now()`
observed by a handler.  All creation-time strings are deterministic
functions of it. -/
structure DateTime where
  year : Nat
  month : Nat
  day : Nat
  hour : Nat
  minute : Nat
  second : Nat
deriving DecidableEq

/-- The ASCII digit for `n % 10`. -/
def digitChar (n : Nat) : Char := Char.ofNat (48 + n % 10)

/-- Two-digit zero-padded decimal (Go layout components `01`, `02`, `15`,
`04`, `05`; their values are below 100). -/
def pad2 (n : Nat) : List Char := [digitChar (n / 10), digitChar n]

/-- Four-digit zero-padded decimal (Go layout component `2006`; valid for
years up to 9999). -/
def pad4 (n : Nat) : List Char :=
  [digitChar (n / 1000), digitChar (n / 100), digitChar (n / 10), digitChar n]

/-- Go `t.Format("20060102150405")`: the 14-digit timestamp. -/
def formatTimestamp (t : DateTime) : String :=
  String.mk (pad4 t.year ++ pad2 t.month ++ pad2 t.day ++
             pad2 t.hour ++ pad2 t.minute ++ pad2 t.second)

/-- Go `t.Format("2006-01-02 15:04:05")` (used for `ConversionDate`). -/
def formatDateTimeGo (t : DateTime) : String :=
  String.mk (pad4 t.year ++ ['-'] ++ pad2 t.month ++ ['-'] ++ pad2 t.day ++
             [' '] ++ pad2 t.hour ++ [':'] ++ pad2 t.minute ++ [':'] ++ pad2 t.second)

/-- `CITService.generateConversionID`: `"CIT" + timestamp`. -/
def generateConversionID (now : DateTime) : String :=
  "CIT" ++ formatTimestamp now

/-- `RentalService.generateRefNo`: `"RNT" + timestamp`. -/
def generateRefNo (now : DateTime) : String :=
  "RNT" ++ formatTimestamp now

/-! ### CIT conversion (`CITService.ConvertFormCS`) -/

/-- A row of the `cit_conversion_records` table (`models.CITConversionRecord`;
surrogate id / timestamps omitted). -/
structure CITConversionRecord where
  conversionID : String
  requestID : Int
  status : String
  conversionDate : String
  processedBy : String
  conversionResult : String
  clientID : String
deriving DecidableEq

/-- `models.CITConversionData`: the success payload. -/
structure CITConversionData where
  conversionID : String
  status : String
  conversionDate : String
  processedBy : String
  conversionResult : String
deriving DecidableEq

/-- `models.CITConversionResponse` envelope. -/
structure CITConversionResponse where
  returnCode : Nat
  data : Option CITConversionData := none
  info : Option Info := none
deriving DecidableEq

/-- The CIT table state. -/
structure CITState where
  records : List CITConversionRecord
deriving DecidableEq

/-- `CITService.ConvertFormCS`: reject non-positive ids; return the existing
record for an already-seen request id; otherwise create a record keyed by a
freshly generated conversion id.  Returns the response and the new table
state. -/
def ConvertFormCS (st : CITState) (reqID : Int) (now : DateTime) :
    CITConversionResponse × CITState :=
  if reqID ≤ 0 then
    ({ returnCode := 40,
       info := some { message := "Invalid ID", messageCode := 40001,
                      fieldInfoList := [⟨"id", "ID must be greater than 0"⟩] } }, st)
  else
    match st.records.find? (fun r => r.requestID == reqID) with
    | some existing =>
      ({ returnCode := 10,
         data := some { conversionID := existing.conversionID, status := existing.status,
                        conversionDate := existing.conversionDate,
                        processedBy := existing.processedBy,
                        conversionResult := existing.conversionResult } }, st)
    | none =>
      let newRecord : CITConversionRecord :=
        { conversionID := generateConversionID now, requestID := reqID,
          status := "completed", conversionDate := formatDateTimeGo now,
          processedBy := "IRAS_CIT_SYSTEM",
          conversionResult := "Form CS conversion completed for ID: " ++ toString reqID,
          clientID := toString reqID }
      ({ returnCode := 10,
         data := some { conversionID := newRecord.conversionID, status := newRecord.status,
                        conversionDate := newRecord.conversionDate,
                        processedBy := newRecord.processedBy,
                        conversionResult := newRecord.conversionResult } },
       { records := st.records ++ [newRecord] })

theorem find?_append_of_none {α : Type} (p : α → Bool) {l1 : List α} (l2 : List α)
    (h : l1.find? p = none) : (l1 ++ l2).find? p = l2.find? p := by
  induction l1 with
  | nil => rfl
  | cons a l ih =>
    rw [List.find?_cons] at h
    rcases hpa : p a with _ | _
    · rw [List.cons_append, List.find?_cons, hpa]
      exact ih (by rwa [hpa] at h)
    · rw [hpa] at h
      exact absurd h (by simp)

/-! ### Claim C4 -/

/-- Claim C4: `ConvertFormCS` is idempotent in the request id.  If a record
for request id `n` already exists, the call returns `returnCode = 10` with
the stored record's fields and leaves the table unchanged; consequently two
successive calls with the same `n > 0` (starting from a table with no
record for `n`) return the same `conversionID`, and exactly one record for
`n` exists afterwards. -/
theorem ConvertFormCS_idempotent :
    (∀ (st : CITState) (n : Int) (t : DateTime) (existing : CITConversionRecord),
        0 < n →
        st.records.find? (fun r => r.requestID == n) = some existing →
        ConvertFormCS st n t =
          ({ returnCode := 10,
             data := some { conversionID := existing.conversionID, status := existing.status,
                            conversionDate := existing.conversionDate,
                            processedBy := existing.processedBy,
                            conversionResult := existing.conversionResult } }, st)) ∧
    (∀ (st : CITState) (n : Int) (t1 t2 : DateTime),
        0 < n →
        st.records.find? (fun r => r.requestID == n) = none →
        (ConvertFormCS st n t1).1.data.map (fun d => d.conversionID) =
            some (generateConversionID t1) ∧
        (ConvertFormCS (ConvertFormCS st n t1).2 n t2).1.data.map (fun d => d.conversionID) =
            some (generateConversionID t1) ∧
        (ConvertFormCS (ConvertFormCS st n t1).2 n t2).2 = (ConvertFormCS st n t1).2 ∧
        (ConvertFormCS st n t1).2.records.countP (fun r => r.requestID == n) = 1) := by
  constructor
  · intro st n t existing hn hfind
    have hle : ¬ (n ≤ 0) := not_le.mpr hn
    simp [ConvertFormCS, hle, hfind]
  · intro st n t1 t2 hn hnone
    have hle : ¬ (n ≤ 0) := not_le.mpr hn
    have hfirst : ConvertFormCS st n t1 =
        ({ returnCode := 10,
           data := some { conversionID := generateConversionID t1, status := "completed",
                          conversionDate := formatDateTimeGo t1,
                          processedBy := "IRAS_CIT_SYSTEM",
                          conversionResult :=
                            "Form CS conversion completed for ID: " ++ toString n } },
         { records := st.records ++
             [{ conversionID := generateConversionID t1, requestID := n,
                status := "completed", conversionDate := formatDateTimeGo t1,
                processedBy := "IRAS_CIT_SYSTEM",
                conversionResult := "Form CS conversion completed for ID: " ++ toString n,
                clientID := toString n }] }) := by
      simp [ConvertFormCS, hle, hnone]
    have hfind2 : ((st.records ++
          [({ conversionID := generateConversionID t1, requestID := n,
              status := "completed", conversionDate := formatDateTimeGo t1,
              processedBy := "IRAS_CIT_SYSTEM",
              conversionResult := "Form CS conversion completed for ID: " ++ toString n,
              clientID := toString n } : CITConversionRecord)]).find?
            (fun r => r.requestID == n)) =
        some { conversionID := generateConversionID t1, requestID := n,
               status := "completed", conversionDate := formatDateTimeGo t1,
               processedBy := "IRAS_CIT_SYSTEM",
               conversionResult := "Form CS conversion completed for ID: " ++ toString n,
               clientID := toString n } := by
      rw [find?_append_of_none _ _ hnone]
      simp [List.find?_cons]
    refine ⟨?_, ?_, ?_, ?_⟩
    · rw [hfirst]
      rfl
    · rw [hfirst]
      simp [ConvertFormCS, hle, hfind2]
    · rw [hfirst]
      simp [ConvertFormCS, hle, hfind2]
    · rw [hfirst]
      have hzero : st.records.countP (fun r => r.requestID == n) = 0 := by
        rw [List.countP_eq_zero]
        intro a ha
        have := List.find?_eq_none.mp hnone a ha
        simpa using this
      simp [List.countP_append, hzero, List.countP_cons]

/-- Claim C4 witness: the theorem applied starting from the empty table with
request id 7 and two concrete clock readings. -/
theorem ConvertFormCS_idempotent_witness :
    (0 : Int) < 7 ∧
    (ConvertFormCS ⟨[]⟩ 7 ⟨2025, 1, 2, 3, 4, 5⟩).1.data.map (fun d => d.conversionID) =
      some (generateConversionID ⟨2025, 1, 2, 3, 4, 5⟩) ∧
    (ConvertFormCS (ConvertFormCS ⟨[]⟩ 7 ⟨2025, 1, 2, 3, 4, 5⟩).2 7
        ⟨2025, 6, 7, 8, 9, 10⟩).1.data.map (fun d => d.conversionID) =
      some (generateConversionID ⟨2025, 1, 2, 3, 4, 5⟩) := by
  have h := ConvertFormCS_idempotent.2 ⟨[]⟩ 7 ⟨2025, 1, 2, 3, 4, 5⟩ ⟨2025, 6, 7, 8, 9, 10⟩
    (by decide) (by rfl)
  exact ⟨by decide, h.1, h.2.1⟩

/-! ### Digit lemmas for the generated timestamps -/

theorem digitChar_isDigit (n : Nat) : (digitChar n).isDigit = true := by
  have h : n % 10 < 10 := Nat.mod_lt _ (by norm_num)
  unfold digitChar
  set k := n % 10 with hk
  interval_cases k <;> decide

theorem formatTimestamp_length (t : DateTime) : (formatTimestamp t).length = 14 := rfl

theorem formatTimestamp_digits (t : DateTime) :
    (formatTimestamp t).toList.all Char.isDigit = true := by
  simp [formatTimestamp, pad4, pad2, String.toList, digitChar_isDigit]

/-! ### Rental submission (`RentalService.SubmitRental`) -/

/-- `models.OrgAndSubmissionInfo` (the assessment year is a JSON number,
`float64` in Go). -/
structure OrgAndSubmissionInfo where
  assmtYear : ℚ
  authorisedPersonEmail : String
  authorisedPersonName : String
  developmentName : String
deriving DecidableEq

/-- `models.PropertyDetailSubmission`: the two fields `SubmitRental`
inspects; the remaining line-item fields travel opaquely inside the
serialized payload and are never read. -/
structure PropertyDetailSubmission where
  propertyTaxRef : String
  recordID : ℚ
deriving DecidableEq

/-- `models.RentalSubmissionRequest`. -/
structure RentalSubmissionRequest where
  orgAndSubmissionInfo : OrgAndSubmissionInfo
  propertyDtl : List PropertyDetailSubmission
deriving DecidableEq

/-- `models.RentalSubmissionFieldError` (`recordIDs` is never set on these
paths and is omitted). -/
structure RentalSubmissionFieldError where
  field : String
  message : String
  recordID : String := ""
deriving DecidableEq

/-- `models.RentalSubmissionFieldInfo` (the nested `fieldInfo` wrapper). -/
structure RentalSubmissionFieldInfo where
  fieldInfo : List RentalSubmissionFieldError
deriving DecidableEq

/-- `models.RentalSubmissionInfo`. -/
structure RentalSubmissionInfo where
  message : String
  messageCode : Nat
  fieldInfoList : Option RentalSubmissionFieldInfo := none
deriving DecidableEq

/-- `models.RentalSubmissionData`. -/
structure RentalSubmissionData where
  refNo : String
deriving DecidableEq

/-- `models.RentalSubmissionResponse` envelope. -/
structure RentalSubmissionResponse where
  returnCode : Nat
  data : Option RentalSubmissionData := none
  info : Option RentalSubmissionInfo := none
deriving DecidableEq

/-- A row of the `rental_submission_records` table. -/
structure RentalSubmissionRecord where
  refNo : String
  assmtYear : ℚ
  authorisedPersonEmail : String
  authorisedPersonName : String
  developmentName : String
  submissionData : List PropertyDetailSubmission
  totalProperties : Nat
  status : String
deriving DecidableEq

/-- Go `fmt.Sprintf("%.0f", x)` on the record id: round to an integer (Go
rounds ties to even; the difference to `round` is immaterial on the ids
exercised here, which are whole numbers). -/
def sprintfF0 (q : ℚ) : String := toString (round q)

/-- Helper: a `returnCode = 40` rental response with one field error
list. -/
def rentalError (msg : String) (code : Nat) (fe : List RentalSubmissionFieldError) :
    RentalSubmissionResponse :=
  { returnCode := 40,
    info := some { message := msg, messageCode := code, fieldInfoList := some ⟨fe⟩ } }

/-- `RentalService.SubmitRental`: validate the organization info, then the
property list, collecting one error per invalid line item; on success
create a record keyed by a freshly generated `refNo`.  Returns the response
and the created row (if any). -/
def SubmitRental (req : RentalSubmissionRequest) (now : DateTime) :
    RentalSubmissionResponse × Option RentalSubmissionRecord :=
  if req.orgAndSubmissionInfo.assmtYear ≤ 0 then
    (rentalError "Invalid assessment year" 40001
      [⟨"assmtYear", "Assessment year must be greater than 0", ""⟩], none)
  else if goTrimSpace req.orgAndSubmissionInfo.authorisedPersonEmail = "" then
    (rentalError "Invalid authorised person email" 40002
      [⟨"authorisedPersonEmail", "Authorised person email is required", ""⟩], none)
  else if goTrimSpace req.orgAndSubmissionInfo.authorisedPersonName = "" then
    (rentalError "Invalid authorised person name" 40003
      [⟨"authorisedPersonName", "Authorised person name is required", ""⟩], none)
  else if goTrimSpace req.orgAndSubmissionInfo.developmentName = "" then
    (rentalError "Invalid development name" 40004
      [⟨"developmentName", "Development name is required", ""⟩], none)
  else if req.propertyDtl.length = 0 then
    (rentalError "No property details provided" 40005
      [⟨"propertyDtl", "At least one property detail is required", ""⟩], none)
  else
    let fieldErrors := req.propertyDtl.filterMap (fun property =>
      if goTrimSpace property.propertyTaxRef = "" then
        some (⟨"propertyTaxRef", "Property tax reference is required",
               sprintfF0 property.recordID⟩ : RentalSubmissionFieldError)
      else none)
    if fieldErrors.length > 0 then
      ({ returnCode := 40,
         info := some { message := "Validation errors in property details",
                        messageCode := 40006, fieldInfoList := some ⟨fieldErrors⟩ } }, none)
    else
      let refNo := generateRefNo now
      ({ returnCode := 0, data := some ⟨refNo⟩ },
       some { refNo := refNo, assmtYear := req.orgAndSubmissionInfo.assmtYear,
              authorisedPersonEmail := req.orgAndSubmissionInfo.authorisedPersonEmail,
              authorisedPersonName := req.orgAndSubmissionInfo.authorisedPersonName,
              developmentName := req.orgAndSubmissionInfo.developmentName,
              submissionData := req.propertyDtl,
              totalProperties := req.propertyDtl.length,
              status := "submitted" })

/-! ### Claim C8 -/

/-- Claim C8: for every rental submission passing the organization-info
checks, an empty `propertyDtl` array yields `returnCode = 40` with message
code 40005 ("No property details provided"), and a valid submission yields
a freshly generated `refNo` equal to `"RNT"` followed by the 14-digit
timestamp. -/
theorem SubmitRental_propertyDtl (req : RentalSubmissionRequest) (now : DateTime)
    (hy : 0 < req.orgAndSubmissionInfo.assmtYear)
    (he : goTrimSpace req.orgAndSubmissionInfo.authorisedPersonEmail ≠ "")
    (hn : goTrimSpace req.orgAndSubmissionInfo.authorisedPersonName ≠ "")
    (hd : goTrimSpace req.orgAndSubmissionInfo.developmentName ≠ "") :
    (req.propertyDtl = [] →
      (SubmitRental req now).1 =
        { returnCode := 40,
          info := some { message := "No property details provided", messageCode := 40005,
                         fieldInfoList := some ⟨[⟨"propertyDtl",
                           "At least one property detail is required", ""⟩]⟩ } }) ∧
    (req.propertyDtl ≠ [] →
      (∀ p ∈ req.propertyDtl, goTrimSpace p.propertyTaxRef ≠ "") →
      (SubmitRental req now).1 =
        { returnCode := 0, data := some ⟨"RNT" ++ formatTimestamp now⟩ } ∧
      (formatTimestamp now).length = 14 ∧
      (formatTimestamp now).toList.all Char.isDigit = true) := by
  have hy0 : ¬ (req.orgAndSubmissionInfo.assmtYear ≤ 0) := not_le.mpr hy
  constructor
  · intro hempty
    simp [SubmitRental, rentalError, hy0, he, hn, hd, hempty]
  · intro hne hall
    have hlen : ¬ (req.propertyDtl.length = 0) := by
      simpa [List.length_eq_zero] using hne
    have herrs : req.propertyDtl.filterMap (fun property =>
        if goTrimSpace property.propertyTaxRef = "" then
          some (⟨"propertyTaxRef", "Property tax reference is required",
                 sprintfF0 property.recordID⟩ : RentalSubmissionFieldError)
        else none) = [] := by
      rw [List.filterMap_eq_nil_iff]
      intro p hp
      simp [hall p hp]
    refine ⟨?_, formatTimestamp_length now, formatTimestamp_digits now⟩
    simp [SubmitRental, hy0, he, hn, hd, hlen, herrs, generateRefNo]

/-- Claim C8 witness: the theorem applied to a concrete valid organization
info, once with an empty and once with a one-element property list. -/
theorem SubmitRental_propertyDtl_witness :
    (SubmitRental ⟨⟨2024, "owner@acme.sg", "Alice Tan", "Acme Towers"⟩, []⟩
        ⟨2025, 3, 14, 15, 9, 26⟩).1 =
      { returnCode := 40,
        info := some { message := "No property details provided", messageCode := 40005,
                       fieldInfoList := some ⟨[⟨"propertyDtl",
                         "At least one property detail is required", ""⟩]⟩ } } ∧
    (SubmitRental ⟨⟨2024, "owner@acme.sg", "Alice Tan", "Acme Towers"⟩, [⟨"PT-0001", 1⟩]⟩
        ⟨2025, 3, 14, 15, 9, 26⟩).1 =
      { returnCode := 0, data := some ⟨"RNT" ++ formatTimestamp ⟨2025, 3, 14, 15, 9, 26⟩⟩ } :=
  ⟨(SubmitRental_propertyDtl ⟨⟨2024, "owner@acme.sg", "Alice Tan", "Acme Towers"⟩, []⟩
      ⟨2025, 3, 14, 15, 9, 26⟩ (by norm_num) (by decide) (by decide) (by decide)).1 rfl,
   ((SubmitRental_propertyDtl ⟨⟨2024, "owner@acme.sg", "Alice Tan", "Acme Towers"⟩,
        [⟨"PT-0001", 1⟩]⟩ ⟨2025, 3, 14, 15, 9, 26⟩ (by norm_num) (by decide) (by decide)
      (by decide)).2 (by decide) (by decide)).1⟩

/-! ### Claim C7 -/

/-- Claim C7 (counterexample): at the concrete clock reading 2025-01-01
12:00:00 the generated CIT conversion id and rental reference number are
exactly the three-letter type prefix followed by the 14-digit timestamp —
17 characters in total — so no random suffix follows the timestamp. -/
theorem generatedKeys_no_random_suffix :
    generateConversionID ⟨2025, 1, 1, 12, 0, 0⟩ = "CIT" ++ "20250101120000" ∧
    generateRefNo ⟨2025, 1, 1, 12, 0, 0⟩ = "RNT" ++ "20250101120000" ∧
    (generateConversionID ⟨2025, 1, 1, 12, 0, 0⟩).length = 17 ∧
    (generateRefNo ⟨2025, 1, 1, 12, 0, 0⟩).length = 17 := by decide

/-- Claim C7 (amended): every successful create of a submission-type record
generates its business key from the system clock — the type prefix
(`"CIT"` / `"RNT"`) followed by the 14-digit timestamp, with NO random
suffix — and never takes it from the caller: every record added by
`ConvertFormCS` carries the system-generated conversion id, and the row
created by `SubmitRental` carries the system-generated reference number. -/
theorem generatedKeys_prefix_timestamp :
    (∀ now : DateTime,
        generateConversionID now = "CIT" ++ formatTimestamp now ∧
        generateRefNo now = "RNT" ++ formatTimestamp now ∧
        (formatTimestamp now).length = 14 ∧
        (formatTimestamp now).toList.all Char.isDigit = true) ∧
    (∀ (st : CITState) (n : Int) (now : DateTime),
        ∀ r ∈ (ConvertFormCS st n now).2.records,
          r ∈ st.records ∨ r.conversionID = generateConversionID now) ∧
    (∀ (req : RentalSubmissionRequest) (now : DateTime) (created : RentalSubmissionRecord),
        (SubmitRental req now).2 = some created → created.refNo = generateRefNo now) := by
  refine ⟨?_, ?_, ?_⟩
  · intro now
    exact ⟨rfl, rfl, formatTimestamp_length now, formatTimestamp_digits now⟩
  · intro st n now r hr
    by_cases hle : n ≤ 0
    · left
      simpa [ConvertFormCS, hle] using hr
    · rcases hfind : st.records.find? (fun rec0 => rec0.requestID == n) with _ | existing
      · simp only [ConvertFormCS, if_neg hle, hfind, List.mem_append] at hr
        rcases hr with hr | hr
        · exact Or.inl hr
        · right
          simp only [List.mem_singleton] at hr
          rw [hr]
      · left
        simpa [ConvertFormCS, hle, hfind] using hr
  · intro req now created h
    simp only [SubmitRental] at h
    split_ifs at h
    all_goals simp_all
    rw [h.symm]

/-- Claim C7 witness: the amended theorem applied to a concrete successful
rental submission and a concrete CIT conversion. -/
theorem generatedKeys_prefix_timestamp_witness :
    (SubmitRental ⟨⟨2023, "finance@corp.sg", "Bob Lim", "Harbour View"⟩, [⟨"PT-7", 7⟩]⟩
        ⟨2026, 2, 3, 4, 5, 6⟩).2 =
      some ⟨"RNT" ++ formatTimestamp ⟨2026, 2, 3, 4, 5, 6⟩, 2023, "finance@corp.sg",
            "Bob Lim", "Harbour View", [⟨"PT-7", 7⟩], 1, "submitted"⟩ ∧
    (⟨"RNT" ++ formatTimestamp ⟨2026, 2, 3, 4, 5, 6⟩, 2023, "finance@corp.sg",
      "Bob Lim", "Harbour View", [⟨"PT-7", 7⟩], 1, "submitted"⟩ :
        RentalSubmissionRecord).refNo = generateRefNo ⟨2026, 2, 3, 4, 5, 6⟩ :=
  ⟨by decide, generatedKeys_prefix_timestamp.2.2
    ⟨⟨2023, "finance@corp.sg", "Bob Lim", "Harbour View"⟩, [⟨"PT-7", 7⟩]⟩
    ⟨2026, 2, 3, 4, 5, 6⟩ _ (by decide)⟩

/-! ### Sale/purchase sellers stamp duty
(`EStampController.processSalePurchaseSellers`) -/

/-- `models.SalePurchaseSellersRequest`: the fields the handler validation
and the duty calculation read; the remaining document fields travel
opaquely and are never inspected. -/
structure SalePurchaseSellersRequest where
  assignID : String
  documentDescription : String
  purchasePrice : ℚ
  considerationAmount : ℚ
  sellingPrice : ℚ
  intentToClaimAbsdRefund : Int
deriving DecidableEq

/-- The duty computation of `processSalePurchaseSellers`: choose the base by
the branch chain (selling price when strictly greatest and positive, else
consideration when positive and above the purchase price, else purchase
price), take 3% with floor 5.00, then add 20% of the base when the
ABSD-refund intent flag equals 1. -/
def salePurchaseSellersDuty (req : SalePurchaseSellersRequest) : ℚ :=
  let p := req.purchasePrice
  let s := req.sellingPrice
  let c := req.considerationAmount
  let base := if s > 0 ∧ s > p ∧ s > c then s
              else if c > 0 ∧ c > p then c
              else p
  let duty := base * (3 / 100)
  let duty2 := if duty < 5 then 5 else duty
  if req.intentToClaimAbsdRefund = 1 then duty2 + base * (20 / 100) else duty2

/-- `EStampController.SalePurchaseSellers` after header checks: the two
required-field checks, then the duty calculation; `none` models the
`returnCode = 40` rejection. -/
def SalePurchaseSellers (req : SalePurchaseSellersRequest) : Option ℚ :=
  if req.assignID = "" ∨ req.documentDescription = "" then none
  else some (salePurchaseSellersDuty req)

/-- The duty as the claim words it: 3% of the maximum of purchase price,
selling price and consideration amount (the tie-break preference order does
not change the amount), raised to the floor 5.00, plus 20% of the same base
when the ABSD-refund intent flag equals 1. -/
def salePurchaseSellersDutySpec (req : SalePurchaseSellersRequest) : ℚ :=
  let base := max req.purchasePrice (max req.sellingPrice req.considerationAmount)
  let duty := if base * (3 / 100) < 5 then 5 else base * (3 / 100)
  if req.intentToClaimAbsdRefund = 1 then duty + base * (20 / 100) else duty

/-! ### Claim C5 -/

/-- Claim C5 (counterexample): the handler validates only `assignId` and
`documentDescription`, so negative price fields reach the calculation.  On
the validated request with purchase price −20, consideration −10, selling
price −5 and the ABSD flag set, the code computes duty 1.00 (its base is
the purchase price −20), while 3% of the maximum (−5) floored at 5.00 plus
20% of that maximum gives 4.00. -/
theorem salePurchaseSellers_negative_counterexample :
    SalePurchaseSellers ⟨"A1", "doc", -20, -10, -5, 1⟩ = some 1 ∧
    salePurchaseSellersDutySpec ⟨"A1", "doc", -20, -10, -5, 1⟩ = 4 ∧
    (1 : ℚ) ≠ 4 := by
  refine ⟨?_, by norm_num [salePurchaseSellersDutySpec, max_def], by norm_num⟩
  simp only [SalePurchaseSellers]
  rw [if_neg (by decide)]
  norm_num [salePurchaseSellersDuty]

/-- Claim C5 (amended): for every validated sale/purchase sellers request
whose three price fields are nonnegative, the computed stamp duty equals 3%
of the maximum of purchase price, selling price and consideration amount,
raised to the floor 5.00 when below it, plus 20% of the same base when the
ABSD-refund intent flag equals 1. -/
theorem salePurchaseSellers_eq_spec (req : SalePurchaseSellersRequest)
    (ha : req.assignID ≠ "") (hd : req.documentDescription ≠ "")
    (hp : 0 ≤ req.purchasePrice) (hs : 0 ≤ req.sellingPrice)
    (hc : 0 ≤ req.considerationAmount) :
    SalePurchaseSellers req = some (salePurchaseSellersDutySpec req) := by
  have hbase : (if req.sellingPrice > 0 ∧ req.sellingPrice > req.purchasePrice ∧
        req.sellingPrice > req.considerationAmount then req.sellingPrice
      else if req.considerationAmount > 0 ∧ req.considerationAmount > req.purchasePrice then
        req.considerationAmount
      else req.purchasePrice) =
      max req.purchasePrice (max req.sellingPrice req.considerationAmount) := by
    split_ifs with h1 h2
    · obtain ⟨hs0, hsp, hsc⟩ := h1
      rw [max_eq_left hsc.le, max_eq_right hsp.le]
    · obtain ⟨hc0, hcp⟩ := h2
      push_neg at h1
      have hsc : req.sellingPrice ≤ req.considerationAmount := by
        rcases le_or_lt req.sellingPrice req.considerationAmount with h | h
        · exact h
        · rcases le_or_lt req.sellingPrice req.purchasePrice with h3 | h3
          · linarith
          · have := h1 (by linarith) h3
            linarith
      rw [max_eq_right hsc, max_eq_right hcp.le]
    · push_neg at h1 h2
      have hcp : req.considerationAmount ≤ req.purchasePrice := by
        rcases le_or_lt req.considerationAmount 0 with h | h
        · linarith
        · exact h2 h
      have hsp : req.sellingPrice ≤ req.purchasePrice := by
        rcases le_or_lt req.sellingPrice 0 with h | h
        · linarith
        · rcases le_or_lt req.sellingPrice req.purchasePrice with h3 | h3
          · exact h3
          · have := h1 h h3
            linarith
      rw [max_eq_left (max_le hsp hcp)]
  have hval : ¬ (req.assignID = "" ∨ req.documentDescription = "") := not_or.mpr ⟨ha, hd⟩
  simp only [SalePurchaseSellers, salePurchaseSellersDuty, salePurchaseSellersDutySpec,
    if_neg hval]
  rw [hbase]

/-- Claim C5 witness: the amended theorem applied at a concrete request
(purchase 100, consideration 250, selling 200, flag set), together with the
computed amount 57.50. -/
theorem salePurchaseSellers_eq_spec_witness :
    SalePurchaseSellers ⟨"A2", "deed", 100, 250, 200, 1⟩ =
      some (salePurchaseSellersDutySpec ⟨"A2", "deed", 100, 250, 200, 1⟩) ∧
    salePurchaseSellersDutySpec ⟨"A2", "deed", 100, 250, 200, 1⟩ = 115 / 2 :=
  ⟨salePurchaseSellers_eq_spec ⟨"A2", "deed", 100, 250, 200, 1⟩ (by decide) (by decide)
      (by norm_num) (by norm_num) (by norm_num),
   by norm_num [salePurchaseSellersDutySpec, max_def]⟩

/-! ### Industrial property SSD (`EStampController.CalIndustrialSSD`) -/

/-- A civil calendar date, standing for a successfully parsed
`time.Parse("2006-01-02", ...)` value. -/
structure Date where
  year : Int
  month : Int
  day : Int
deriving DecidableEq

/-- Gregorian leap-year rule (as in Go's `time` package). -/
def isLeapYear (y : Int) : Bool :=
  (y % 4 == 0 && y % 100 != 0) || y % 400 == 0

/-- Length of a month in the proleptic Gregorian calendar. -/
def daysInMonth (y m : Int) : Int :=
  if m = 2 then (if isLeapYear y then 29 else 28)
  else if m = 4 ∨ m = 6 ∨ m = 9 ∨ m = 11 then 30
  else 31

/-- A date accepted by `time.Parse("2006-01-02", ·)`: four-digit year,
month 1–12, day within the month.  A missing or malformed date string in
the Go handler corresponds to `valid = false` here. -/
def Date.valid (d : Date) : Bool :=
  decide (0 ≤ d.year) && decide (d.year ≤ 9999) &&
  decide (1 ≤ d.month) && decide (d.month ≤ 12) &&
  decide (1 ≤ d.day) && decide (d.day ≤ daysInMonth d.year d.month)

/-- Days since 1970-01-01 of a civil date (standard civil-from-days
algorithm).  Both parsed dates are midnight UTC, so Go's
`int(disposal.Sub(acquisition).Hours() / 24)` equals the difference of
these day numbers. -/
def daysFromCivil (d : Date) : Int :=
  let y := if d.month ≤ 2 then d.year - 1 else d.year
  let era := Int.fdiv y 400
  let yoe := y - era * 400
  let doy := Int.fdiv (153 * (if d.month > 2 then d.month - 3 else d.month + 9) + 2) 5 +
             d.day - 1
  let doe := yoe * 365 + Int.fdiv yoe 4 - Int.fdiv yoe 100 + doy
  era * 146097 + doe - 719468

/-- `models.CalIndustrialSSDRequest` (the fields the handler reads). -/
structure CalIndustrialSSDRequest where
  clientID : String
  value : ℚ
  acquisitionDate : Date
  disposalDate : Date
deriving DecidableEq

/-- `models.CalIndustrialSSDData`. -/
structure CalIndustrialSSDData where
  stampDuty : ℚ
  holdingPeriod : Int
  dutyRate : ℚ
deriving DecidableEq

/-- `models.CalIndustrialSSDResponse` envelope. -/
structure CalIndustrialSSDResponse where
  returnCode : Nat
  data : Option CalIndustrialSSDData := none
  info : Option Info := none
deriving DecidableEq

/-- Helper: a `returnCode = 400` validation response of the SSD handler. -/
def calIndustrialSSDError (field msg : String) : CalIndustrialSSDResponse :=
  { returnCode := 400,
    info := some { message := "Validation failed", messageCode := 400,
                   fieldInfoList := [⟨field, msg⟩] } }

/-- `EStampController.CalIndustrialSSD` after the header checks: field
validation, then the holding-period-banded seller stamp duty (whole days
divided by 365 with Go's truncating integer division). -/
def CalIndustrialSSD (req : CalIndustrialSSDRequest) : CalIndustrialSSDResponse :=
  if req.clientID = "" then
    calIndustrialSSDError "clientID" "Client ID is required"
  else if req.value ≤ 0 then
    calIndustrialSSDError "value" "Property value must be greater than 0"
  else if req.acquisitionDate.valid = false then
    calIndustrialSSDError "acquisitionDate" "Acquisition date must be in YYYY-MM-DD format"
  else if req.disposalDate.valid = false then
    calIndustrialSSDError "disposalDate" "Disposal date must be in YYYY-MM-DD format"
  else if daysFromCivil req.disposalDate < daysFromCivil req.acquisitionDate then
    calIndustrialSSDError "disposalDate" "Disposal date must be after acquisition date"
  else
    let holdingPeriodDays := daysFromCivil req.disposalDate - daysFromCivil req.acquisitionDate
    let holdingPeriodYears := Int.tdiv holdingPeriodDays 365
    let dutyRate : ℚ :=
      if holdingPeriodYears < 1 then 15 / 100
      else if holdingPeriodYears < 2 then 10 / 100
      else if holdingPeriodYears < 3 then 5 / 100
      else 0
    { returnCode := 200,
      data := some { stampDuty := req.value * dutyRate,
                     holdingPeriod := holdingPeriodYears, dutyRate := dutyRate },
      info := some { message :=
                       "Industrial property seller stamp duty calculation completed successfully",
                     messageCode := 200 } }

/-- The claim's duty formula: the declared value times 15% below 1 year,
10% in [1,2), 5% in [2,3) and 0% from 3 years on, the holding period being
whole days divided by 365 with integer division. -/
def industrialSSDSpec (value : ℚ) (days : Int) : ℚ :=
  let years := Int.tdiv days 365
  if years < 1 then value * (15 / 100)
  else if years < 2 then value * (10 / 100)
  else if years < 3 then value * (5 / 100)
  else value * 0

/-! ### Claim C6 -/

/-- Claim C6: for every validated industrial-property SSD request (positive
value, well-formed dates, disposal not before acquisition), the handler
answers `returnCode = 200` and the stamp duty equals the declared value
times the holding-period-banded rate, the holding period being whole days
between the dates divided by 365 with integer division. -/
theorem CalIndustrialSSD_banded (req : CalIndustrialSSDRequest)
    (hid : req.clientID ≠ "") (hv : 0 < req.value)
    (hacq : req.acquisitionDate.valid = true) (hdisp : req.disposalDate.valid = true)
    (hord : daysFromCivil req.acquisitionDate ≤ daysFromCivil req.disposalDate) :
    (CalIndustrialSSD req).returnCode = 200 ∧
    (CalIndustrialSSD req).data.map (fun d => d.stampDuty) =
      some (industrialSSDSpec req.value
        (daysFromCivil req.disposalDate - daysFromCivil req.acquisitionDate)) := by
  have hv0 : ¬ (req.value ≤ 0) := not_le.mpr hv
  have hord0 : ¬ (daysFromCivil req.disposalDate < daysFromCivil req.acquisitionDate) :=
    not_lt.mpr hord
  have ha : ¬ (req.acquisitionDate.valid = false) := by simp [hacq]
  have hb : ¬ (req.disposalDate.valid = false) := by simp [hdisp]
  constructor
  · simp [CalIndustrialSSD, hid, hv0, ha, hb, hord0]
  · simp only [CalIndustrialSSD, industrialSSDSpec, if_neg hid, if_neg hv0, if_neg ha,
      if_neg hb, if_neg hord0, Option.map_some]
    split_ifs <;> rfl

/-- Claim C6 witness: the theorem applied to the concrete request (value
1000, acquired 2020-01-15, disposed 2022-06-01; 868 days, band [2,3) years,
5%), together with the evaluated duty 50. -/
theorem CalIndustrialSSD_banded_witness :
    (CalIndustrialSSD ⟨"C9", 1000, ⟨2020, 1, 15⟩, ⟨2022, 6, 1⟩⟩).returnCode = 200 ∧
    (CalIndustrialSSD ⟨"C9", 1000, ⟨2020, 1, 15⟩, ⟨2022, 6, 1⟩⟩).data.map
        (fun d => d.stampDuty) =
      some (industrialSSDSpec 1000 (daysFromCivil ⟨2022, 6, 1⟩ - daysFromCivil ⟨2020, 1, 15⟩)) ∧
    industrialSSDSpec 1000 (daysFromCivil ⟨2022, 6, 1⟩ - daysFromCivil ⟨2020, 1, 15⟩) = 50 := by
  have h := CalIndustrialSSD_banded ⟨"C9", 1000, ⟨2020, 1, 15⟩, ⟨2022, 6, 1⟩⟩
    (by decide) (by norm_num) (by decide) (by decide) (by decide)
  refine ⟨h.1, h.2, ?_⟩
  norm_num [industrialSSDSpec, daysFromCivil, Int.fdiv, Int.tdiv]

/-! ### Property consolidated statement
(`PropertyService.RetrieveConsolidatedStatement`) -/

/-- The decoded consolidated statement blob (`models.ConsolidatedStatement`);
the nested property/payment lists travel opaquely and no claim reads past
the scalar fields. -/
structure ConsolidatedStatement where
  statementDate : String
  totalAmount : String
deriving DecidableEq

/-- A row of the property consolidated statement table (the blob column is
the JSON-encoded statement). -/
structure PropertyCSRecord where
  refNo : String
  propertyTaxRef : String
  consolidatedData : String
deriving DecidableEq

/-- `models.PropertyConsolidatedStatementRequest`. -/
structure PropertyCSRequest where
  refNo : String
  propertyTaxRef : String
deriving DecidableEq

/-- `models.PropertyConsolidatedStatementData`. -/
structure PropertyCSData where
  refNo : String
  propertyTaxRef : String
  consolidatedStatement : Option ConsolidatedStatement := none
deriving DecidableEq

/-- `models.PropertyConsolidatedStatementResponse` envelope. -/
structure PropertyCSResponse where
  returnCode : Nat
  data : Option PropertyCSData := none
  info : Option Info := none
deriving DecidableEq

/-- The statement fabricated on a database miss
(`generateMockConsolidatedStatement`), parameterised by the current date
string. -/
def mockConsolidatedStatement (currentDate : String) : ConsolidatedStatement :=
  { statementDate := currentDate, totalAmount := "2,500.00" }

/-- `PropertyService.RetrieveConsolidatedStatement`: validate the two keys,
look the row up by `(ref_no, property_tax_ref)`; on a miss fabricate the
mock response (also `returnCode = 0`); on a hit decode the stored blob
(`decode` stands for `json.Unmarshal`, `none` being a decode failure, and
an empty blob yields the zero-value statement) and answer
`returnCode = 0`. -/
def RetrieveConsolidatedStatement (decode : String → Option ConsolidatedStatement)
    (db : List PropertyCSRecord) (req : PropertyCSRequest) (currentDate : String) :
    PropertyCSResponse :=
  if goTrimSpace req.refNo = "" then
    { returnCode := 40,
      info := some { message := "Invalid reference number", messageCode := 40001,
                     fieldInfoList := [⟨"refNo", "Reference number is required"⟩] } }
  else if goTrimSpace req.propertyTaxRef = "" then
    { returnCode := 40,
      info := some { message := "Invalid property tax reference", messageCode := 40002,
                     fieldInfoList := [⟨"propertyTaxRef", "Property tax reference is required"⟩] } }
  else
    match db.find? (fun r => r.refNo == req.refNo && r.propertyTaxRef == req.propertyTaxRef) with
    | none =>
      { returnCode := 0,
        data := some { refNo := req.refNo, propertyTaxRef := req.propertyTaxRef,
                       consolidatedStatement := some (mockConsolidatedStatement currentDate) } }
    | some r =>
      if r.consolidatedData = "" then
        { returnCode := 0,
          data := some { refNo := r.refNo, propertyTaxRef := r.propertyTaxRef,
                         consolidatedStatement := some { statementDate := "", totalAmount := "" } } }
      else
        match decode r.consolidatedData with
        | none =>
          { returnCode := 50,
            info := some { message := "Error parsing consolidated data", messageCode := 50002 } }
        | some cs =>
          { returnCode := 0,
            data := some { refNo := r.refNo, propertyTaxRef := r.propertyTaxRef,
                           consolidatedStatement := some cs } }

/-! ### Stamp certificate authenticity (`EStampController.SCAuthenticity`) -/

/-- `models.SCAuthenticityRequest` (the fields the handler reads). -/
structure SCAuthenticityRequest where
  docRefNo : Int
  stampCertRef : String
deriving DecidableEq

/-- The request-dependent fields of the mock `models.SCAuthenticityData`
payload (the static mock constants bear on no claim and are elided). -/
structure SCAuthenticityData where
  docRefNo : ℚ
  stampCertRef : String
deriving DecidableEq

/-- `models.SCAuthenticityResponse` envelope. -/
structure SCAuthenticityResponse where
  returnCode : Nat
  data : Option SCAuthenticityData := none
  info : Option Info := none
deriving DecidableEq

/-- `EStampController.SCAuthenticity`: header check with the
development-mode default fill, body validation, then the mock success
response with `returnCode = 200`. -/
def SCAuthenticity (env clientIDHeader clientSecretHeader ibmClientID ibmClientSecret : String)
    (req : SCAuthenticityRequest) : SCAuthenticityResponse :=
  let clientID :=
    if env == "development" && clientIDHeader == "" then ibmClientID else clientIDHeader
  let clientSecret :=
    if env == "development" && clientSecretHeader == "" then ibmClientSecret
    else clientSecretHeader
  if clientID = "" ∨ clientSecret = "" then
    { returnCode := 400,
      info := some { message := "Missing required headers", messageCode := 400,
                     fieldInfoList := [⟨"X-IBM-Client-Id", "Client ID is required"⟩,
                                       ⟨"X-IBM-Client-Secret", "Client Secret is required"⟩] } }
  else if req.docRefNo = 0 then
    { returnCode := 400,
      info := some { message := "Validation failed", messageCode := 400,
                     fieldInfoList := [⟨"docRefNo", "Document reference number is required"⟩] } }
  else if req.stampCertRef = "" then
    { returnCode := 400,
      info := some { message := "Validation failed", messageCode := 400,
                     fieldInfoList := [⟨"stampCertRef", "Stamp certificate reference is required"⟩] } }
  else
    { returnCode := 200,
      data := some { docRefNo := (req.docRefNo : ℚ), stampCertRef := req.stampCertRef },
      info := some { message := "Stamp certificate authenticity check completed successfully",
                     messageCode := 200 } }

/-! ### Claim C9 -/

/-- Claim C9: the success return code differs by endpoint family and each
family's own code is authoritative: a successful GST lookup answers
`returnCode = 10`, a successful property consolidated-statement retrieval
answers `returnCode = 0`, a successful stamp-certificate authenticity check
answers `returnCode = 200`, and the three codes are pairwise distinct. -/
theorem successCode_per_family :
    (∀ (db : List GSTRegistration) (req : GSTRequest) (r : GSTRegistration),
        goTrimSpace req.clientID ≠ "" → goTrimSpace req.regID ≠ "" →
        db.find? (fun x => x.registrationID == req.regID && x.clientID == req.clientID) =
          some r →
        (SearchGSTRegistered db req).returnCode = 10) ∧
    (∀ (decode : String → Option ConsolidatedStatement) (db : List PropertyCSRecord)
        (req : PropertyCSRequest) (currentDate : String) (r : PropertyCSRecord)
        (cs : ConsolidatedStatement),
        goTrimSpace req.refNo ≠ "" → goTrimSpace req.propertyTaxRef ≠ "" →
        db.find? (fun x => x.refNo == req.refNo && x.propertyTaxRef == req.propertyTaxRef) =
          some r →
        r.consolidatedData ≠ "" → decode r.consolidatedData = some cs →
        (RetrieveConsolidatedStatement decode db req currentDate).returnCode = 0) ∧
    (∀ (env cidH csecH ibmID ibmSec : String) (req : SCAuthenticityRequest),
        cidH ≠ "" → csecH ≠ "" → req.docRefNo ≠ 0 → req.stampCertRef ≠ "" →
        (SCAuthenticity env cidH csecH ibmID ibmSec req).returnCode = 200) ∧
    ((10 : Nat) ≠ 0 ∧ (0 : Nat) ≠ 200 ∧ (10 : Nat) ≠ 200) := by
  refine ⟨?_, ?_, ?_, by norm_num⟩
  · intro db req r h1 h2 hfind
    simp [SearchGSTRegistered, h1, h2, hfind]
  · intro decode db req currentDate r cs h1 h2 hfind hne hdec
    simp [RetrieveConsolidatedStatement, h1, h2, hfind, hne, hdec]
  · intro env cidH csecH ibmID ibmSec req hcid hsec hdoc hcert
    simp [SCAuthenticity, hcid, hsec, hdoc, hcert]

/-- Claim C9 witness: the three conjuncts applied at concrete successful
requests of each family. -/
theorem successCode_per_family_witness :
    (SearchGSTRegistered [⟨"C2", "R2", "G2", "Beta Pte Ltd", "2021-01-01", "2031-01-01",
        "Registered", "ok"⟩] ⟨"C2", "R2"⟩).returnCode = 10 ∧
    (RetrieveConsolidatedStatement (fun _ => some ⟨"2025-01-01", "1.00"⟩)
        [⟨"REF1", "PTX1", "blob"⟩] ⟨"REF1", "PTX1"⟩ "2025-01-02").returnCode = 0 ∧
    (SCAuthenticity "production" "cid" "csec" "" "" ⟨5, "SC-1"⟩).returnCode = 200 :=
  ⟨successCode_per_family.1 _ ⟨"C2", "R2"⟩
      ⟨"C2", "R2", "G2", "Beta Pte Ltd", "2021-01-01", "2031-01-01", "Registered", "ok"⟩
      (by decide) (by decide) (by decide),
   successCode_per_family.2.1 (fun _ => some ⟨"2025-01-01", "1.00"⟩) _ ⟨"REF1", "PTX1"⟩
      "2025-01-02" ⟨"REF1", "PTX1", "blob"⟩ ⟨"2025-01-01", "1.00"⟩ (by decide) (by decide)
      (by decide) (by decide) rfl,
   successCode_per_family.2.2.1 "production" "cid" "csec" "" "" ⟨5, "SC-1"⟩ (by decide)
      (by decide) (by decide) (by decide)⟩

/-! ### SingPass flow (`SingPassService`) -/

/-- A row of the SingPass auth table (`models.SingPassAuthRecord`). -/
structure SingPassAuthRecord where
  authURL : String
  state : String
  scope : String
  callbackURL : String
  clientID : String
  status : String
deriving DecidableEq

/-- A row of the SingPass token table (`models.SingPassTokenRecord`). -/
structure SingPassTokenRecord where
  code : String
  state : String
  accessToken : String
  tokenType : String
  expiresIn : Nat
  refreshToken : String
  scope : String
  callbackURL : String
  clientID : String
  status : String
deriving DecidableEq

/-- The two SingPass tables. -/
structure SingPassState where
  auths : List SingPassAuthRecord
  tokens : List SingPassTokenRecord
deriving DecidableEq

/-- `SingPassService.isValidCallbackURL`: membership in the fixed list of
registered callback URLs. -/
def isValidCallbackURL (url : String) : Bool :=
  url == "http://www.iras.gov.sg/callback" ||
  url == "https://www.iras.gov.sg/callback" ||
  url == "http://localhost:8090/callback" ||
  url == "https://localhost:8090/callback" ||
  url == "http://dirtor.mv/ma"

/-- `SingPassService.generateSingPassAuthURL`. -/
def generateSingPassAuthURL (scope callbackURL state : String) : String :=
  "https://stg-saml.singpass.gov.sg/FIM/sps/SingpassIDPFed/saml20/logininitial" ++
  "?client_id=" ++ "a1234b5c-1234-abcd-efgh-a1234b5cdef" ++
  "&scope=" ++ scope ++ "&redirect_uri=" ++ callbackURL ++ "&state=" ++ state

/-- `models.SingPassServiceAuthRequest`. -/
structure SingPassServiceAuthRequest where
  scope : String
  callbackURL : String
  state : String
deriving DecidableEq

/-- `models.SingPassServiceAuthData`. -/
structure SingPassServiceAuthData where
  url : String
  state : String
deriving DecidableEq

/-- `models.SingPassServiceAuthResponse` envelope. -/
structure SingPassServiceAuthResponse where
  returnCode : Nat
  data : Option SingPassServiceAuthData := none
  info : Option Info := none
deriving DecidableEq

/-- `SingPassService.SingPassServiceAuth`: reject an unregistered callback
URL, default the state/scope/callback URL, then create the auth record with
status `pending`.  `genState` stands for `uuid.New().String()`. -/
def SingPassServiceAuth (st : SingPassState) (req : SingPassServiceAuthRequest)
    (genState : String) : SingPassServiceAuthResponse × SingPassState :=
  if req.callbackURL ≠ "" ∧ isValidCallbackURL req.callbackURL = false then
    ({ returnCode := 40,
       info := some { message := "Arguments Error", messageCode := 850301,
                      fieldInfoList :=
                        [⟨"callback_url", "The callback_url specified is not registered"⟩] } },
     st)
  else
    let state := if req.state = "" then genState else req.state
    let scope := if req.scope = "" then "GSTReturnsSub+GSTTransListSub" else req.scope
    let callbackURL :=
      if req.callbackURL = "" then "http://www.iras.gov.sg/callback" else req.callbackURL
    let authURL := generateSingPassAuthURL scope callbackURL state
    ({ returnCode := 10, data := some { url := authURL, state := state } },
     { st with auths := st.auths ++
         [{ authURL := authURL, state := state, scope := scope, callbackURL := callbackURL,
            clientID := "singpass-client", status := "pending" }] })

/-- `models.SingPassServiceAuthTokenRequest`. -/
structure SingPassServiceAuthTokenRequest where
  code : String
  state : String
  callbackURL : String
  scope : String
deriving DecidableEq

/-- `models.SingPassServiceAuthTokenData`. -/
structure SingPassServiceAuthTokenData where
  accessToken : String
  tokenType : String
  expiresIn : Nat
  refreshToken : String
  scope : String
deriving DecidableEq

/-- `models.SingPassServiceAuthTokenResponse` envelope. -/
structure SingPassServiceAuthTokenResponse where
  returnCode : Nat
  data : Option SingPassServiceAuthTokenData := none
  info : Option Info := none
deriving DecidableEq

/-- Set the status of the first auth record matching `state` to `completed`
(the row the `First`-by-state query found is the row `Update` rewrites). -/
def completeFirstByState : List SingPassAuthRecord → String → List SingPassAuthRecord
  | [], _ => []
  | a :: rest, state =>
    if a.state == state then { a with status := "completed" } :: rest
    else a :: completeFirstByState rest state

/-- Helper: a missing-required-field rejection of the token endpoint. -/
def singPassFieldError (code : Nat) (field msg : String) : SingPassServiceAuthTokenResponse :=
  { returnCode := 40,
    info := some { message := "Missing required field", messageCode := code,
                   fieldInfoList := [⟨field, msg⟩] } }

/-- `SingPassService.SingPassServiceAuthToken`: required-field and callback
checks, find the auth record by state, create the token record with status
`active`, then set the paired auth record's status to `completed`.
`accessToken` / `refreshToken` stand for the generated token strings. -/
def SingPassServiceAuthToken (st : SingPassState) (req : SingPassServiceAuthTokenRequest)
    (accessToken refreshToken : String) :
    SingPassServiceAuthTokenResponse × SingPassState :=
  if goTrimSpace req.code = "" then
    (singPassFieldError 40001 "code" "Code is required", st)
  else if goTrimSpace req.state = "" then
    (singPassFieldError 40002 "state" "State is required", st)
  else if goTrimSpace req.callbackURL = "" then
    (singPassFieldError 40003 "callback_url" "Callback URL is required", st)
  else if goTrimSpace req.scope = "" then
    (singPassFieldError 40004 "scope" "Scope is required", st)
  else if isValidCallbackURL req.callbackURL = false then
    ({ returnCode := 40,
       info := some { message := "Arguments Error", messageCode := 850301,
                      fieldInfoList :=
                        [⟨"callback_url", "The callback_url specified is not registered"⟩] } },
     st)
  else
    match st.auths.find? (fun a => a.state == req.state) with
    | none =>
      ({ returnCode := 40,
         info := some { message := "Invalid state", messageCode := 40005,
                        fieldInfoList := [⟨"state", "State not found or expired"⟩] } }, st)
    | some _ =>
      ({ returnCode := 10,
         data := some { accessToken := accessToken, tokenType := "Bearer", expiresIn := 3600,
                        refreshToken := refreshToken, scope := req.scope } },
       { auths := completeFirstByState st.auths req.state,
         tokens := st.tokens ++
           [{ code := req.code, state := req.state, accessToken := accessToken,
              tokenType := "Bearer", expiresIn := 3600, refreshToken := refreshToken,
              scope := req.scope, callbackURL := req.callbackURL,
              clientID := "singpass-client", status := "active" }] })

/-! ### Claim C10 -/

/-- Claim C10: every SingPass auth record is created with status `pending`;
an auth record's status becomes `completed` exactly when the token endpoint
succeeds, i.e. when the token record paired to it by the state token is
created (every failing path leaves both tables unchanged); and the only
rewrite `completeFirstByState` performs is setting the status of the
record paired by the state token to `completed` — no other transition
exists. -/
theorem singPass_lifecycle :
    (∀ (st : SingPassState) (req : SingPassServiceAuthRequest) (genState : String),
        (SingPassServiceAuth st req genState).2 = st ∨
        ∃ newRec, newRec.status = "pending" ∧
          (SingPassServiceAuth st req genState).2.auths = st.auths ++ [newRec] ∧
          (SingPassServiceAuth st req genState).2.tokens = st.tokens) ∧
    (∀ (st : SingPassState) (req : SingPassServiceAuthTokenRequest) (atk rtk : String),
        ((SingPassServiceAuthToken st req atk rtk).1.returnCode = 10 →
          (SingPassServiceAuthToken st req atk rtk).2.tokens =
            st.tokens ++ [⟨req.code, req.state, atk, "Bearer", 3600, rtk, req.scope,
                           req.callbackURL, "singpass-client", "active"⟩] ∧
          (SingPassServiceAuthToken st req atk rtk).2.auths =
            completeFirstByState st.auths req.state) ∧
        ((SingPassServiceAuthToken st req atk rtk).1.returnCode ≠ 10 →
          (SingPassServiceAuthToken st req atk rtk).2 = st)) ∧
    (∀ (l : List SingPassAuthRecord) (s : String) (a : SingPassAuthRecord),
        a ∈ completeFirstByState l s →
        a ∈ l ∨ ∃ b, b ∈ l ∧ b.state = s ∧ a = { b with status := "completed" }) := by
  refine ⟨?_, ?_, ?_⟩
  · intro st req genState
    by_cases h : req.callbackURL ≠ "" ∧ isValidCallbackURL req.callbackURL = false
    · left
      simp [SingPassServiceAuth, h]
    · right
      refine ⟨{ authURL := generateSingPassAuthURL
                  (if req.scope = "" then "GSTReturnsSub+GSTTransListSub" else req.scope)
                  (if req.callbackURL = "" then "http://www.iras.gov.sg/callback"
                   else req.callbackURL)
                  (if req.state = "" then genState else req.state),
                state := if req.state = "" then genState else req.state,
                scope := if req.scope = "" then "GSTReturnsSub+GSTTransListSub" else req.scope,
                callbackURL := if req.callbackURL = "" then "http://www.iras.gov.sg/callback"
                               else req.callbackURL,
                clientID := "singpass-client", status := "pending" }, rfl, ?_, ?_⟩ <;>
        simp [SingPassServiceAuth, h]
  · intro st req atk rtk
    have hch : (∃ resp, SingPassServiceAuthToken st req atk rtk = (resp, st) ∧
          resp.returnCode = 40) ∨
        SingPassServiceAuthToken st req atk rtk =
          ({ returnCode := 10,
             data := some { accessToken := atk, tokenType := "Bearer", expiresIn := 3600,
                            refreshToken := rtk, scope := req.scope } },
           { auths := completeFirstByState st.auths req.state,
             tokens := st.tokens ++ [⟨req.code, req.state, atk, "Bearer", 3600, rtk,
                                      req.scope, req.callbackURL, "singpass-client",
                                      "active"⟩] }) := by
      simp only [SingPassServiceAuthToken]
      split_ifs
      · exact Or.inl ⟨_, rfl, rfl⟩
      · exact Or.inl ⟨_, rfl, rfl⟩
      · exact Or.inl ⟨_, rfl, rfl⟩
      · exact Or.inl ⟨_, rfl, rfl⟩
      · exact Or.inl ⟨_, rfl, rfl⟩
      · rcases hfind : st.auths.find? (fun a => a.state == req.state) with _ | a
        · rw [hfind]
          exact Or.inl ⟨_, rfl, rfl⟩
        · rw [hfind]
          exact Or.inr rfl
    rcases hch with ⟨resp, heq, h40⟩ | heq
    · constructor
      · intro h10
        rw [heq] at h10
        simp only at h10
        rw [h40] at h10
        exact absurd h10 (by norm_num)
      · intro _
        rw [heq]
    · constructor
      · intro _
        rw [heq]
        exact ⟨rfl, rfl⟩
      · intro h10
        rw [heq] at h10
        simp at h10
  · intro l s
    induction l with
    | nil =>
      intro a ha
      simp [completeFirstByState] at ha
    | cons b rest ih =>
      intro a ha
      simp only [completeFirstByState] at ha
      by_cases hb : b.state == s
      · rw [if_pos hb] at ha
        rcases List.mem_cons.mp ha with h | h
        · right
          exact ⟨b, List.mem_cons_self b rest, by simpa using hb, h⟩
        · left
          exact List.mem_cons_of_mem _ h
      · rw [if_neg hb] at ha
        rcases List.mem_cons.mp ha with h | h
        · left
          rw [h]
          exact List.mem_cons_self b rest
        · rcases ih a h with h2 | ⟨c, hc, hcs, hca⟩
          · left
            exact List.mem_cons_of_mem _ h2
          · right
            exact ⟨c, List.mem_cons_of_mem _ hc, hcs, hca⟩

/-- Claim C10 witness: the lifecycle theorem applied at a concrete pending
auth record and a successful token exchange, with both sides evaluated. -/
theorem singPass_lifecycle_witness :
    (SingPassServiceAuthToken
        ⟨[⟨"u", "state-1", "sc", "cb", "singpass-client", "pending"⟩], []⟩
        ⟨"code1", "state-1", "http://www.iras.gov.sg/callback", "GSTReturnsSub"⟩
        "AT" "RT").2.auths =
      completeFirstByState [⟨"u", "state-1", "sc", "cb", "singpass-client", "pending"⟩]
        "state-1" ∧
    completeFirstByState [⟨"u", "state-1", "sc", "cb", "singpass-client", "pending"⟩]
        "state-1" =
      [⟨"u", "state-1", "sc", "cb", "singpass-client", "completed"⟩] :=
  ⟨((singPass_lifecycle.2.1
      ⟨[⟨"u", "state-1", "sc", "cb", "singpass-client", "pending"⟩], []⟩
      ⟨"code1", "state-1", "http://www.iras.gov.sg/callback", "GSTReturnsSub"⟩
      "AT" "RT").1 (by decide)).2, by decide⟩

end ApiIras










